import Mathlib

/-!
A shallow embedding of the repository's file-system practice module
(the fs wrapper exporting fileReadAsync, writeFileAsync, appendFileSync,
appendToFile, deleteFileSync, deleteFileAsync, directoryExist, createFolder,
removeDirectory, watchFileChanged, together with the stand-alone
appendFileSync variant of practice/basic/index.js).

The filesystem is modelled as an association list of path/entry pairs plus a
list of paths on which any access attempt fails with a permission error.  The
Node fs primitives the scripts call are modelled in the NodeFs namespace;
each script function is then translated directly from the source, including
its console logging and its try/catch structure.  A script function maps a
filesystem state to the new state, the caller-visible outcome (a normal
JavaScript return value, or an uncaught exception propagating out), and the
console-log lines it printed.  The module-level path constants of the source
are kept; every function also has a path-generalised form (suffix At) of
which the source function is the instance at its constant path.
-/

/-- A filesystem entry: a regular file with string content, or a directory. -/
inductive Entry
  | file (content : String)
  | dir
deriving DecidableEq, Repr

/-- Filesystem state: an association list of entries plus the paths on which
any access attempt fails with a permission error (modelling OS-level
permission failures injected at a path). -/
structure FS where
  entries : List (String × Entry)
  denied : List String
deriving DecidableEq, Repr

/-- Entry stored at a path, if any. -/
def FS.lookup (st : FS) (p : String) : Option Entry :=
  (st.entries.find? (fun q => q.1 == p)).map (fun q => q.2)

/-- Whether access at this path fails with a permission error. -/
def FS.isDenied (st : FS) (p : String) : Bool :=
  st.denied.contains p

/-- Store an entry at a path, replacing any previous entry there. -/
def FS.setEntry (st : FS) (p : String) (e : Entry) : FS :=
  { st with entries := (p, e) :: st.entries.filter (fun q => q.1 != p) }

/-- Remove the entry at a path. -/
def FS.removeEntry (st : FS) (p : String) : FS :=
  { st with entries := st.entries.filter (fun q => q.1 != p) }

/-- Error kinds of the modelled Node fs primitives (ENOENT, EACCES, EEXIST,
EISDIR). -/
inductive FsErrorKind
  | notFound
  | accessDenied
  | alreadyExists
  | isDirectory
deriving DecidableEq, Repr

/-- The JavaScript values the script functions return to their callers. -/
inductive JsValue
  | undef
  | bool (b : Bool)
  | str (s : String)
  | watcher (p : String)
deriving DecidableEq, Repr

/-- Caller-visible outcome of a call: a normal return, or an uncaught
exception propagating to the caller. -/
inductive Outcome
  | ret (v : JsValue)
  | thrown (e : FsErrorKind)
deriving DecidableEq, Repr

/-- Result of running one script function: new filesystem state,
caller-visible outcome, console-log lines printed. -/
structure OpResult where
  state : FS
  outcome : Outcome
  log : List String
deriving DecidableEq, Repr

/-- Rendering of an fs error for console.log, as the scripts print it. -/
def errMsg : FsErrorKind → String
  | .notFound => "Error: ENOENT: no such file or directory"
  | .accessDenied => "Error: EACCES: permission denied"
  | .alreadyExists => "Error: EEXIST: file already exists"
  | .isDirectory => "Error: EISDIR: illegal operation on a directory"

/-- Character-list version of the string prefix test (structural recursion,
used so that concrete evaluation stays elementary). -/
def hasPrefixChars : List Char → List Char → Bool
  | [], _ => true
  | _ :: _, [] => false
  | a :: as, b :: bs => a == b && hasPrefixChars as bs

/-- Whether path q lies in the subtree rooted at dir: q is dir itself or a
descendant (dir followed by a slash is a prefix of q). -/
def underDir (dir q : String) : Bool :=
  q == dir || hasPrefixChars (dir ++ "/").data q.data

namespace NodeFs

/-- Model of fs.accessSync: throws EACCES on a denied path, ENOENT when the
path has no entry, succeeds otherwise. -/
def accessSync (st : FS) (p : String) : Except FsErrorKind Unit :=
  if st.isDenied p then .error .accessDenied
  else match st.lookup p with
    | some _ => .ok ()
    | none => .error .notFound

/-- Model of fs.existsSync: true iff an entry is present and accessible;
errors are swallowed into false, it never throws. -/
def existsSync (st : FS) (p : String) : Bool :=
  if st.isDenied p then false
  else (st.lookup p).isSome

/-- Model of fs.readFileSync: content of the file at p, or an error. -/
def readFileSync (st : FS) (p : String) : Except FsErrorKind String :=
  if st.isDenied p then .error .accessDenied
  else match st.lookup p with
    | some (.file c) => .ok c
    | some .dir => .error .isDirectory
    | none => .error .notFound

/-- Model of fs.writeFileSync: replaces the content of the file at p, or
creates the file when absent (overwrite semantics). -/
def writeFileSync (st : FS) (p : String) (content : String) :
    Except FsErrorKind FS :=
  if st.isDenied p then .error .accessDenied
  else match st.lookup p with
    | some .dir => .error .isDirectory
    | _ => .ok (st.setEntry p (.file content))

/-- Model of fs.appendFileSync and of the fs.appendFile callback form: adds
content at the end of the file at p, creating the file when absent (Node
appendFile creates missing targets). -/
def appendFileSync (st : FS) (p : String) (content : String) :
    Except FsErrorKind FS :=
  if st.isDenied p then .error .accessDenied
  else match st.lookup p with
    | some .dir => .error .isDirectory
    | some (.file c) => .ok (st.setEntry p (.file (c ++ content)))
    | none => .ok (st.setEntry p (.file content))

/-- Model of fs.unlinkSync and of the fs.unlink callback form: removes the
file at p; fails with ENOENT when absent and with EISDIR on a directory. -/
def unlink (st : FS) (p : String) : Except FsErrorKind FS :=
  if st.isDenied p then .error .accessDenied
  else match st.lookup p with
    | some (.file _) => .ok (st.removeEntry p)
    | some .dir => .error .isDirectory
    | none => .error .notFound

/-- Model of fs.mkdirSync without the recursive option: fails with EEXIST
when an entry is already present at p, creates a directory otherwise.
(Missing-parent failures are not modelled; no claim depends on them.) -/
def mkdirSync (st : FS) (p : String) : Except FsErrorKind FS :=
  if st.isDenied p then .error .accessDenied
  else match st.lookup p with
    | some _ => .error .alreadyExists
    | none => .ok (st.setEntry p .dir)

/-- Removal walk over the entry list for the recursive rmdir model: each
entry in the subtree rooted at dir is removed in turn, unless it is
permission-denied, in which case the walk stops at that first failure and
the remaining entries — the denied one included — are kept.  Returns the
surviving entries together with the first error encountered, if any. -/
def rmTreeGo (denied : List String) (dir : String) :
    List (String × Entry) → List (String × Entry) × Option FsErrorKind
  | [] => ([], none)
  | q :: rest =>
    if underDir dir q.1 then
      if denied.contains q.1 then (q :: rest, some .accessDenied)
      else rmTreeGo denied dir rest
    else
      let r := rmTreeGo denied dir rest
      (q :: r.1, r.2)

/-- Model of fs.rmdir with the recursive option: removes the directory at p
together with every descendant entry; a permission-denied entry inside the
tree stops the removal at that first failure, leaving the tree partially
deleted, and the first error is reported (no transactional rollback).  The
resulting state is returned alongside the error, since a failed removal may
still have deleted part of the tree. -/
def rmRecursive (st : FS) (p : String) : FS × Option FsErrorKind :=
  if st.isDenied p then (st, some .accessDenied)
  else match st.lookup p with
    | none => (st, some .notFound)
    | some _ =>
      let r := rmTreeGo st.denied p st.entries
      ({ st with entries := r.1 }, r.2)

/-- Model of fs.watch: returns a watcher handle when the path is accessible,
and otherwise throws synchronously (Node fs.watch throws ENOENT when the
watched path is absent). -/
def watch (st : FS) (p : String) : Except FsErrorKind String :=
  if st.isDenied p then .error .accessDenied
  else match st.lookup p with
    | some _ => .ok p
    | none => .error .notFound

end NodeFs

/- Module-level path constants of the source. -/

def readFilePath : String := "./practice/basic/fs/file/test.txt"

def writeFilePath : String := "./practice/basic/fs/file/write.txt"

def filePathForAppendFile : String := "./practice/basic/fs/file/write.txt"

def folderPath : String := "./practice/basic/fs/file"

def deleteFilePath : String := "./practice/basic/fs/file/write.txt"

def filePathForWatch : String := "./practice/basic/fs/file/write.txt"

/- The script functions, translated from the source.  Each keeps its source
name; the At form generalises the module-level path constant. -/

/-- fileReadAsync (readFileSync inside try/catch; both branches log and the
function returns undefined). -/
def fileReadAsyncAt (st : FS) (p : String) : OpResult :=
  match NodeFs.readFileSync st p with
  | .ok c => ⟨st, .ret .undef, ["file content: " ++ c]⟩
  | .error e => ⟨st, .ret .undef, ["error on read file: " ++ errMsg e]⟩

def fileReadAsync (st : FS) : OpResult :=
  fileReadAsyncAt st readFilePath

/-- fileExistCheck: fs.accessSync inside try/catch; every failure, including
a permission error, is caught and turned into false. -/
def fileExistCheck (st : FS) (filePath : String) : Bool :=
  match NodeFs.accessSync st filePath with
  | .ok _ => true
  | .error _ => false

/-- writeFileAsync (writeFileSync inside try/catch; both branches log and the
function returns undefined — fs.writeFileSync itself returns undefined). -/
def writeFileAsyncAt (st : FS) (p : String) (content : String) : OpResult :=
  match NodeFs.writeFileSync st p content with
  | .ok st2 => ⟨st2, .ret .undef, ["synchronous file writen done"]⟩
  | .error e => ⟨st, .ret .undef, [errMsg e]⟩

def writeFileAsync (st : FS) : OpResult :=
  writeFileAsyncAt st writeFilePath "this are synchronous file with add line"

/-- appendToFile (fs.appendFile with a callback: errors go to the callback
and are only logged; the function itself returns undefined).  Note the
source prepends a newline to the appended text. -/
def appendToFileAt (st : FS) (p : String) : OpResult :=
  match NodeFs.appendFileSync st p ("\n" ++ "Append a new text asynchronously") with
  | .ok st2 => ⟨st2, .ret .undef, ["text append ok"]⟩
  | .error e => ⟨st, .ret .undef, ["error appending text on file: " ++ errMsg e]⟩

def appendToFile (st : FS) : OpResult :=
  appendToFileAt st writeFilePath

/-- appendFileSync of the fs module: guarded by fileExistCheck; when the
guard fails it only logs and returns undefined; the guarded call sits in a
try/catch whose catch also only logs.  The source prepends a newline to the
appended text. -/
def appendFileSyncAt (st : FS) (p : String) (text : String) : OpResult :=
  if fileExistCheck st p then
    match NodeFs.appendFileSync st p ("\n" ++ text) with
    | .ok st2 => ⟨st2, .ret .undef, ["append ok."]⟩
    | .error e => ⟨st, .ret .undef, ["error on append file: " ++ errMsg e]⟩
  else
    ⟨st, .ret .undef, ["file path are not exist!"]⟩

def appendFileSync (st : FS) (text : String) : OpResult :=
  appendFileSyncAt st filePathForAppendFile text

/-- Path constant of the stand-alone practice/basic/index.js script. -/
def basicFilePath : String := "../basic/fs/file/write.txt"

/-- The appendFileSync variant of practice/basic/index.js: no existence
guard, just fs.appendFileSync in try/catch with logging. -/
def appendFileSyncBasicAt (st : FS) (p : String) (text : String) : OpResult :=
  match NodeFs.appendFileSync st p ("\n" ++ text) with
  | .ok st2 => ⟨st2, .ret .undef, ["append ok."]⟩
  | .error e => ⟨st, .ret .undef, ["error on append file: " ++ errMsg e]⟩

def appendFileSyncBasic (st : FS) (text : String) : OpResult :=
  appendFileSyncBasicAt st basicFilePath text

/-- directoryExist: fs.existsSync, with logs naming the last path segment;
returns the boolean together with its log line. -/
def directoryExistAt (st : FS) (dir : String) : Bool × List String :=
  let folderName := (dir.splitOn "/").getLastD ""
  if NodeFs.existsSync st dir then
    (true, ["This \"" ++ folderName ++ "\" Folder exist, try another name"])
  else
    (false, ["folder are not found, you can create folder name of " ++ folderName])

/-- createFolder: guarded by directoryExist; when the guard reports the path
present it logs and returns; otherwise it calls fs.mkdirSync with no
try/catch, so an mkdirSync error would propagate uncaught. -/
def createFolderAt (st : FS) (dir : String) : OpResult :=
  let d := directoryExistAt st dir
  if d.1 then
    ⟨st, .ret .undef, d.2 ++ ["direcory true"]⟩
  else
    match NodeFs.mkdirSync st dir with
    | .ok st2 => ⟨st2, .ret .undef, d.2 ++ ["folder created"]⟩
    | .error e => ⟨st, .thrown e, d.2⟩

def createFolder (st : FS) : OpResult :=
  createFolderAt st folderPath

/-- removeDirectory: guarded by directoryExist; on the guarded path it calls
fs.rmdir with the recursive option and a callback that only logs, so a
removal error (including a mid-tree permission failure that left the tree
partially deleted) is only logged and the function returns undefined. -/
def removeDirectoryAt (st : FS) (dir : String) : OpResult :=
  let d := directoryExistAt st dir
  if d.1 then
    let r := NodeFs.rmRecursive st dir
    match r.2 with
    | none => ⟨r.1, .ret .undef, d.2 ++ ["Directory remove done."]⟩
    | some e =>
      ⟨r.1, .ret .undef, d.2 ++ ["You got an Error remove directory: " ++ errMsg e]⟩
  else
    ⟨st, .ret .undef, d.2 ++ ["Folder are not exist!"]⟩

def removeDirectory (st : FS) : OpResult :=
  removeDirectoryAt st folderPath

/-- deleteFileAsync: guarded by fileExistCheck; fs.unlink with a callback, so
unlink errors are only logged by the callback and the function returns
undefined in every case. -/
def deleteFileAsyncAt (st : FS) (p : String) : OpResult :=
  if fileExistCheck st p then
    match NodeFs.unlink st p with
    | .ok st2 => ⟨st2, .ret .undef, ["file remove done."]⟩
    | .error e =>
      ⟨st, .ret .undef, ["file are not remove, you got an error: " ++ errMsg e]⟩
  else
    ⟨st, .ret .undef, ["file not found"]⟩

def deleteFileAsync (st : FS) : OpResult :=
  deleteFileAsyncAt st writeFilePath

/-- deleteFileSync: guarded by fileExistCheck, but the guarded fs.unlinkSync
call has no try/catch, so an unlinkSync error propagates uncaught. -/
def deleteFileSyncAt (st : FS) (p : String) : OpResult :=
  if fileExistCheck st p then
    match NodeFs.unlink st p with
    | .ok st2 => ⟨st2, .ret .undef, ["file remove done."]⟩
    | .error e => ⟨st, .thrown e, []⟩
  else
    ⟨st, .ret .undef,
      ["This " ++ (p.splitOn "/").getLastD "" ++ " are not found"]⟩

def deleteFileSync (st : FS) : OpResult :=
  deleteFileSyncAt st deleteFilePath

/-- A change event as the watch callback receives it: the event type string
and the file name. -/
structure ChangeEvent where
  kind : String
  path : String
deriving DecidableEq, Repr

/-- Result of starting a watch: the caller-visible outcome and the list of
paths with an active watcher after the call. -/
structure WatchResult where
  outcome : Outcome
  registered : List String
deriving DecidableEq, Repr

/-- Events delivered to the registered watchers when the OS reports a change
of eventType at a path: one event per watcher on that path. -/
def deliverChange (registered : List String) (eventType changed : String) :
    List ChangeEvent :=
  (registered.filter (fun q => q == changed)).map (fun q => ⟨eventType, q⟩)

/-- watchFileChanged: fs.watch with no try/catch, so a synchronous fs.watch
error (ENOENT on an absent path) propagates uncaught and no watcher is
registered. -/
def watchFileChangedAt (st : FS) (p : String) : WatchResult :=
  match NodeFs.watch st p with
  | .ok w => ⟨.ret (.watcher w), [p]⟩
  | .error e => ⟨.thrown e, []⟩

def watchFileChanged (st : FS) : WatchResult :=
  watchFileChangedAt st filePathForWatch

deriving instance DecidableEq for Except

/-! Helper lemmas shared by the claim theorems. -/

theorem FS.isDenied_setEntry (st : FS) (p : String) (e : Entry) (q : String) :
    (st.setEntry p e).isDenied q = st.isDenied q := rfl

theorem FS.lookup_setEntry_self (st : FS) (p : String) (e : Entry) :
    (st.setEntry p e).lookup p = some e := by
  simp [FS.lookup, FS.setEntry, List.find?]

theorem strAppend_assoc (a b c : String) : a ++ b ++ c = a ++ (b ++ c) := by
  apply String.ext
  simp [String.data_append, List.append_assoc]

theorem fileExistCheck_eq_true_iff (st : FS) (p : String) :
    fileExistCheck st p = true ↔
      (st.isDenied p = false ∧ (st.lookup p).isSome = true) := by
  unfold fileExistCheck NodeFs.accessSync
  cases hd : st.isDenied p <;> cases hl : st.lookup p <;> simp [hd, hl]

theorem directoryExistAt_fst (st : FS) (p : String) :
    (directoryExistAt st p).1 = NodeFs.existsSync st p := by
  unfold directoryExistAt
  cases h : NodeFs.existsSync st p <;> simp [h]

theorem fileReadAsync_outcome (st : FS) :
    (fileReadAsync st).outcome = .ret .undef := by
  unfold fileReadAsync fileReadAsyncAt
  cases h : NodeFs.readFileSync st readFilePath <;> simp [h]

theorem writeFileAsync_outcome (st : FS) :
    (writeFileAsync st).outcome = .ret .undef := by
  unfold writeFileAsync writeFileAsyncAt
  cases h : NodeFs.writeFileSync st writeFilePath
      "this are synchronous file with add line" <;> simp [h]

theorem appendFileSync_outcome (st : FS) (t : String) :
    (appendFileSync st t).outcome = .ret .undef := by
  unfold appendFileSync appendFileSyncAt
  cases hg : fileExistCheck st filePathForAppendFile
  · simp [hg]
  · cases h : NodeFs.appendFileSync st filePathForAppendFile ("\n" ++ t) <;>
      simp [hg, h]

theorem deleteFileAsync_outcome (st : FS) :
    (deleteFileAsync st).outcome = .ret .undef := by
  unfold deleteFileAsync deleteFileAsyncAt
  cases hg : fileExistCheck st writeFilePath
  · simp [hg]
  · cases h : NodeFs.unlink st writeFilePath <;> simp [hg, h]

/-! Claim theorems. -/

/-- Claim C1, counterexample to the claim as stated: on a state where the
target is absent, the guarded appendFileSync yields the very same
caller-visible outcome (a plain undefined return) as on a state where the
append succeeds — no NotFound is signaled — and the unguarded appendToFile
does create the file (Node appendFile creates absent targets). -/
theorem claim_c1_cex :
    (appendFileSync ⟨[], []⟩ "x").outcome =
      (appendFileSync ⟨[(filePathForAppendFile, .file "a")], []⟩ "x").outcome ∧
    ((appendToFile ⟨[], []⟩).state.lookup writeFilePath).isSome = true := by
  decide

/-- Claim C1, amended: on an absent target the guarded appendFileSync only
logs, returns undefined (no NotFound signaled to the caller) and never
creates the file, leaving the state unchanged; the unguarded appendToFile,
by contrast, creates the file when the target is absent and also reports no
error to its caller. -/
theorem claim_c1_thm (st : FS) (text : String) :
    (fileExistCheck st filePathForAppendFile = false →
      (appendFileSync st text).state = st ∧
      (appendFileSync st text).outcome = .ret .undef ∧
      (appendFileSync st text).log = ["file path are not exist!"]) ∧
    (st.lookup writeFilePath = none → st.isDenied writeFilePath = false →
      (appendToFile st).state.lookup writeFilePath =
        some (.file ("\n" ++ "Append a new text asynchronously")) ∧
      (appendToFile st).outcome = .ret .undef) := by
  constructor
  · intro hg
    simp [appendFileSync, appendFileSyncAt, hg]
  · intro hl hd
    simp [appendToFile, appendToFileAt, NodeFs.appendFileSync, hl, hd,
      FS.lookup_setEntry_self]

/-- Claim C1, witness: the amended theorem applied to the empty filesystem. -/
theorem claim_c1_witness :
    (fileExistCheck (⟨[], []⟩ : FS) filePathForAppendFile = false ∧
      (appendFileSync ⟨[], []⟩ "x").state = ⟨[], []⟩) ∧
    ((⟨[], []⟩ : FS).lookup writeFilePath = none ∧
      (appendToFile ⟨[], []⟩).outcome = .ret .undef) :=
  ⟨⟨by decide, ((claim_c1_thm ⟨[], []⟩ "x").1 (by decide)).1⟩,
   ⟨by decide, ((claim_c1_thm ⟨[], []⟩ "x").2 (by decide) (by decide)).2⟩⟩

/-- Claim C2, counterexample to the claim as stated: a failing read (absent
file) produces exactly the same caller-visible outcome as a successful read,
so the failure is not surfaced as a typed result the caller can branch on. -/
theorem claim_c2_cex :
    (fileReadAsync ⟨[], []⟩).outcome =
      (fileReadAsync ⟨[(readFilePath, .file "hi")], []⟩).outcome := by
  decide

/-- Claim C2, amended: the read, write and append operations never surface a
typed failure — their caller-visible outcome is the plain undefined return in
every filesystem state, success or failure alike, with errors reported only
in console logs. -/
theorem claim_c2_thm (st1 st2 : FS) (t1 t2 : String) :
    (fileReadAsync st1).outcome = (fileReadAsync st2).outcome ∧
    (writeFileAsync st1).outcome = (writeFileAsync st2).outcome ∧
    (appendFileSync st1 t1).outcome = (appendFileSync st2 t2).outcome ∧
    (deleteFileAsync st1).outcome = (deleteFileAsync st2).outcome :=
  ⟨(fileReadAsync_outcome st1).trans (fileReadAsync_outcome st2).symm,
   (writeFileAsync_outcome st1).trans (writeFileAsync_outcome st2).symm,
   (appendFileSync_outcome st1 t1).trans (appendFileSync_outcome st2 t2).symm,
   (deleteFileAsync_outcome st1).trans (deleteFileAsync_outcome st2).symm⟩

/-- Claim C3, counterexample to the claim as stated: appending "x" then "y"
to a file holding "a" yields "a\nx\ny", not "a" ++ "x" ++ "y" — the script
inserts a newline in front of every appended chunk. -/
theorem claim_c3_cex :
    NodeFs.readFileSync
      (appendFileSync
        (appendFileSync ⟨[(filePathForAppendFile, .file "a")], []⟩ "x").state
        "y").state
      filePathForAppendFile = .ok "a\nx\ny" ∧
    NodeFs.readFileSync
      (appendFileSync
        (appendFileSync ⟨[(filePathForAppendFile, .file "a")], []⟩ "x").state
        "y").state
      filePathForAppendFile ≠ .ok ("a" ++ "x" ++ "y") := by
  decide

/-- Claim C3, amended: on an accessible file holding original, appending b1
and then b2 and reading back yields original ++ "\n" ++ b1 ++ "\n" ++ b2 —
order preserved, but with a newline inserted before each appended chunk. -/
theorem claim_c3_thm (st : FS) (original b1 b2 : String)
    (h1 : st.lookup filePathForAppendFile = some (.file original))
    (h2 : st.isDenied filePathForAppendFile = false) :
    NodeFs.readFileSync
      (appendFileSync (appendFileSync st b1).state b2).state
      filePathForAppendFile
      = .ok (original ++ "\n" ++ b1 ++ "\n" ++ b2) := by
  have hg : fileExistCheck st filePathForAppendFile = true := by
    rw [fileExistCheck_eq_true_iff]
    exact ⟨h2, by simp [h1]⟩
  simp [appendFileSync, appendFileSyncAt, fileExistCheck, NodeFs.accessSync,
    NodeFs.appendFileSync, NodeFs.readFileSync, h1, h2,
    FS.lookup_setEntry_self, FS.isDenied_setEntry, strAppend_assoc]

/-- Claim C3, witness: the amended theorem applied to a file holding "a" and
chunks "x", "y". -/
theorem claim_c3_witness :
    ((⟨[(filePathForAppendFile, Entry.file "a")], []⟩ : FS).lookup
        filePathForAppendFile = some (.file "a")) ∧
    NodeFs.readFileSync
      (appendFileSync
        (appendFileSync ⟨[(filePathForAppendFile, .file "a")], []⟩ "x").state
        "y").state
      filePathForAppendFile = .ok ("a" ++ "\n" ++ "x" ++ "\n" ++ "y") :=
  ⟨by decide,
   claim_c3_thm ⟨[(filePathForAppendFile, .file "a")], []⟩ "a" "x" "y"
     (by decide) (by decide)⟩

/-- Claim C4, counterexample to the claim as stated: a present but
access-denied entry yields the same plain false as an absent path — the
permission failure is caught and collapsed into false, not surfaced as a
failure distinguished from the false result. -/
theorem claim_c4_cex :
    fileExistCheck ⟨[("p", Entry.file "c")], ["p"]⟩ "p" = false ∧
    fileExistCheck ⟨[], []⟩ "p" = false := by
  decide

/-- Claim C4, amended: both existence checks return true exactly when an
accessible entry is present (absence yields false and never throws), but
access-denied and other I/O failures are caught internally and collapsed
into the false result rather than surfaced as distinguished failures. -/
theorem claim_c4_thm (st : FS) (p : String) :
    (fileExistCheck st p = true ↔
      (st.isDenied p = false ∧ (st.lookup p).isSome = true)) ∧
    ((directoryExistAt st p).1 = true ↔
      (st.isDenied p = false ∧ (st.lookup p).isSome = true)) := by
  refine ⟨fileExistCheck_eq_true_iff st p, ?_⟩
  rw [directoryExistAt_fst]
  unfold NodeFs.existsSync
  cases hd : st.isDenied p <;> simp [hd]

/-- After filtering out every pair whose key lies under dir, no key under dir
can be found any more. -/
theorem find?_filter_underDir (l : List (String × Entry)) (dir c : String)
    (hc : underDir dir c = true) :
    (l.filter (fun q => !underDir dir q.1)).find? (fun q => q.1 == c) = none := by
  induction l with
  | nil => simp
  | cons a t ih =>
    cases ha : underDir dir a.1 with
    | true => simpa [List.filter_cons, ha] using ih
    | false =>
      have hne : (a.1 == c) = false := by
        cases hac : a.1 == c
        · rfl
        · have hac' : a.1 = c := eq_of_beq hac
          rw [hac', hc] at ha
          exact absurd ha (by simp)
      simp [List.filter_cons, ha, List.find?, hne, ih]

/-- Claim C5, counterexample to the claim as stated: creating the folder
twice from the empty state leaves the second call with exactly the same
caller-visible outcome as the first (a plain undefined return) — the second
call does not fail with AlreadyExists. -/
theorem claim_c5_cex :
    (createFolder (createFolder ⟨[], []⟩).state).outcome = .ret .undef ∧
    (createFolder (createFolder ⟨[], []⟩).state).outcome =
      (createFolder ⟨[], []⟩).outcome := by
  decide

/-- Claim C5, amended: from a state where the folder path is absent and
accessible, the first createFolder succeeds and creates the directory; the
second call refuses to create, leaves the existing entry untouched, and
returns undefined after logging a warning — it does not signal a typed
AlreadyExists failure. -/
theorem claim_c5_thm (st : FS)
    (h1 : st.lookup folderPath = none)
    (h2 : st.isDenied folderPath = false) :
    (createFolder st).outcome = .ret .undef ∧
    (createFolder st).state.lookup folderPath = some .dir ∧
    (createFolder (createFolder st).state).state = (createFolder st).state ∧
    (createFolder (createFolder st).state).outcome = .ret .undef := by
  have hstate : (createFolder st).state = st.setEntry folderPath .dir := by
    simp [createFolder, createFolderAt, directoryExistAt, NodeFs.existsSync,
      NodeFs.mkdirSync, h1, h2]
  refine ⟨?_, ?_, ?_, ?_⟩
  · simp [createFolder, createFolderAt, directoryExistAt, NodeFs.existsSync,
      NodeFs.mkdirSync, h1, h2]
  · rw [hstate]; exact FS.lookup_setEntry_self st folderPath .dir
  · rw [hstate]
    simp [createFolder, createFolderAt, directoryExistAt, NodeFs.existsSync,
      FS.isDenied_setEntry, h2, FS.lookup_setEntry_self]
  · rw [hstate]
    simp [createFolder, createFolderAt, directoryExistAt, NodeFs.existsSync,
      FS.isDenied_setEntry, h2, FS.lookup_setEntry_self]

/-- Claim C5, witness: the amended theorem applied to the empty filesystem. -/
theorem claim_c5_witness :
    ((⟨[], []⟩ : FS).lookup folderPath = none) ∧
    (createFolder (createFolder ⟨[], []⟩).state).state =
      (createFolder ⟨[], []⟩).state :=
  ⟨by decide, (claim_c5_thm ⟨[], []⟩ (by decide) (by decide)).2.2.1⟩

/-- Claim C6, counterexample to the claim as stated: removing an absent file
yields exactly the same caller-visible outcome as a successful removal (a
plain undefined return) — no NotFound failure is signaled. -/
theorem claim_c6_cex :
    (deleteFileSync ⟨[], []⟩).outcome =
      (deleteFileSync ⟨[(deleteFilePath, .file "c")], []⟩).outcome := by
  decide

/-- Claim C6, amended: when the target does not pass the existence check,
both removal functions only log and return undefined, leaving the state
unchanged — no typed NotFound is signaled — and the failure is idempotent:
calling deleteFileSync again yields the identical result, not a crash. -/
theorem claim_c6_thm (st : FS)
    (h : fileExistCheck st deleteFilePath = false) :
    (deleteFileSync st).state = st ∧
    (deleteFileSync st).outcome = .ret .undef ∧
    deleteFileSync (deleteFileSync st).state = deleteFileSync st ∧
    (deleteFileAsync st).state = st ∧
    (deleteFileAsync st).outcome = .ret .undef := by
  have h' : fileExistCheck st writeFilePath = false := h
  simp [deleteFileSync, deleteFileSyncAt, deleteFileAsync, deleteFileAsyncAt,
    h, h']

/-- Claim C6, witness: the amended theorem applied to the empty filesystem. -/
theorem claim_c6_witness :
    fileExistCheck (⟨[], []⟩ : FS) deleteFilePath = false ∧
    deleteFileSync (deleteFileSync ⟨[], []⟩).state = deleteFileSync ⟨[], []⟩ :=
  ⟨by decide, (claim_c6_thm ⟨[], []⟩ (by decide)).2.2.1⟩

/-- When no entry of the subtree rooted at dir is permission-denied, the
removal walk deletes exactly the entries under dir and reports no error. -/
theorem rmTreeGo_clean (denied : List String) (dir : String)
    (l : List (String × Entry))
    (h : l.all (fun q => !underDir dir q.1 || !denied.contains q.1) = true) :
    NodeFs.rmTreeGo denied dir l =
      (l.filter (fun q => !underDir dir q.1), none) := by
  induction l with
  | nil => rfl
  | cons a t ih =>
    simp only [List.all_cons, Bool.and_eq_true] at h
    cases ha : underDir dir a.1 with
    | false => simp [NodeFs.rmTreeGo, ha, List.filter_cons, ih h.2]
    | true =>
      have hc : denied.contains a.1 = false := by
        have h1 := h.1
        rw [ha] at h1
        simpa using h1
      have hmem : a.1 ∉ denied := by simpa using hc
      simp [NodeFs.rmTreeGo, ha, hc, hmem, List.filter_cons, ih h.2]

/-- Claim C7, counterexample to the claim as stated: removing an absent
directory yields exactly the same caller-visible outcome as a successful
recursive removal (a plain undefined return) — no NotFound failure is
signaled. -/
theorem claim_c7_cex :
    (removeDirectory ⟨[], []⟩).outcome =
      (removeDirectory
        ⟨[(folderPath, .dir), (folderPath ++ "/a.txt", .file "x")], []⟩).outcome := by
  decide

/-- Claim C7, amended: when the target directory is present and accessible
and no path under it is permission-denied, removeDirectory removes it
together with every descendant — afterwards neither the directory nor any
path under it has an entry — and returns undefined (a permission-denied
descendant would instead stop the removal at that first failure, leaving
the tree partially deleted, with the error only logged by the callback);
when the target is absent it does not fail with NotFound but likewise
returns undefined after logging, leaving the state unchanged. -/
theorem claim_c7_thm (st : FS) :
    (NodeFs.existsSync st folderPath = true →
      st.entries.all
        (fun q => !underDir folderPath q.1 || !st.denied.contains q.1) = true →
      (removeDirectory st).outcome = .ret .undef ∧
      (removeDirectory st).state.lookup folderPath = none ∧
      ∀ c : String, underDir folderPath c = true →
        (removeDirectory st).state.lookup c = none) ∧
    (NodeFs.existsSync st folderPath = false →
      (removeDirectory st).state = st ∧
      (removeDirectory st).outcome = .ret .undef) := by
  constructor
  · intro hex hclean
    have hd : st.isDenied folderPath = false := by
      cases h : st.isDenied folderPath
      · rfl
      · simp [NodeFs.existsSync, h] at hex
    have hl : (st.lookup folderPath).isSome = true := by
      simpa [NodeFs.existsSync, hd] using hex
    obtain ⟨e, he⟩ := Option.isSome_iff_exists.mp hl
    have hrm : NodeFs.rmRecursive st folderPath =
        ({ st with entries := st.entries.filter (fun q => !underDir folderPath q.1) },
          none) := by
      simp [NodeFs.rmRecursive, hd, he,
        rmTreeGo_clean st.denied folderPath st.entries hclean]
    have hstate : (removeDirectory st).state =
        { st with entries := st.entries.filter (fun q => !underDir folderPath q.1) } := by
      simp [removeDirectory, removeDirectoryAt, directoryExistAt,
        NodeFs.existsSync, hd, he, hrm]
    have hall : ∀ c : String, underDir folderPath c = true →
        (removeDirectory st).state.lookup c = none := by
      intro c hc
      rw [hstate]
      show ((st.entries.filter
        (fun q => !underDir folderPath q.1)).find? (fun q => q.1 == c)).map
          (fun q => q.2) = none
      rw [find?_filter_underDir st.entries folderPath c hc]
      rfl
    refine ⟨?_, hall folderPath (by simp [underDir]), hall⟩
    simp [removeDirectory, removeDirectoryAt, directoryExistAt,
      NodeFs.existsSync, hd, he, hrm]
  · intro hex
    constructor <;>
      simp [removeDirectory, removeDirectoryAt, directoryExistAt, hex]

/-- Claim C7, witness: the amended theorem applied to a directory containing
one nested file with nothing denied, and to the empty filesystem for the
absent branch. -/
theorem claim_c7_witness :
    (NodeFs.existsSync
        ⟨[(folderPath, Entry.dir), (folderPath ++ "/a.txt", Entry.file "x")], []⟩
        folderPath = true ∧
      (removeDirectory
        ⟨[(folderPath, Entry.dir), (folderPath ++ "/a.txt", Entry.file "x")], []⟩).state.lookup
        (folderPath ++ "/a.txt") = none) ∧
    (removeDirectory ⟨[], []⟩).state = ⟨[], []⟩ :=
  ⟨⟨by decide,
    ((claim_c7_thm
      ⟨[(folderPath, Entry.dir), (folderPath ++ "/a.txt", Entry.file "x")], []⟩).1
      (by decide) (by decide)).2.2 (folderPath ++ "/a.txt") (by decide)⟩,
   ((claim_c7_thm ⟨[], []⟩).2 (by decide)).1⟩

/-- Claim C8, confirmed: writing content b at an accessible non-directory
path (overwrite semantics: replaces existing content or creates the file)
and then reading the same path yields exactly b — both at the fs primitive
the read wrapper calls and in the wrapper's own log line. -/
theorem claim_c8_thm (st : FS) (p b : String)
    (hd : st.isDenied p = false)
    (hnd : st.lookup p ≠ some .dir) :
    NodeFs.readFileSync (writeFileAsyncAt st p b).state p = .ok b ∧
    (fileReadAsyncAt (writeFileAsyncAt st p b).state p).log =
      ["file content: " ++ b] := by
  have hstate : (writeFileAsyncAt st p b).state = st.setEntry p (.file b) := by
    cases hl : st.lookup p with
    | none => simp [writeFileAsyncAt, NodeFs.writeFileSync, hd, hl]
    | some e =>
      cases e with
      | file c => simp [writeFileAsyncAt, NodeFs.writeFileSync, hd, hl]
      | dir => exact absurd hl hnd
  rw [hstate]
  constructor
  · simp [NodeFs.readFileSync, FS.isDenied_setEntry, hd,
      FS.lookup_setEntry_self]
  · simp [fileReadAsyncAt, NodeFs.readFileSync, FS.isDenied_setEntry, hd,
      FS.lookup_setEntry_self]

/-- Claim C8, witness: the round trip at a concrete path and content, from
the empty filesystem. -/
theorem claim_c8_witness :
    ((⟨[], []⟩ : FS).isDenied "a.txt" = false ∧
      (⟨[], []⟩ : FS).lookup "a.txt" ≠ some .dir) ∧
    NodeFs.readFileSync (writeFileAsyncAt ⟨[], []⟩ "a.txt" "hello").state
      "a.txt" = .ok "hello" :=
  ⟨⟨by decide, by decide⟩,
   (claim_c8_thm ⟨[], []⟩ "a.txt" "hello" (by decide) (by decide)).1⟩

/-- Claim C9, counterexample to the claim as stated: starting the watch on a
state where the watched path is absent makes the script propagate an
uncaught ENOENT exception to its caller — an unhandled crash, not a typed
NotFound result. -/
theorem claim_c9_cex :
    (watchFileChanged ⟨[], []⟩).outcome = .thrown .notFound := by
  decide

/-- Claim C9, amended: starting a watch on an absent (and accessible) path
throws an uncaught NotFound exception rather than returning a typed result,
registers no watcher, and consequently no ChangeEvent is ever delivered for
it. -/
theorem claim_c9_thm (st : FS)
    (h1 : st.lookup filePathForWatch = none)
    (h2 : st.isDenied filePathForWatch = false) :
    (watchFileChanged st).outcome = .thrown .notFound ∧
    (watchFileChanged st).registered = [] ∧
    ∀ t c : String,
      deliverChange (watchFileChanged st).registered t c = [] := by
  have hw : watchFileChanged st = ⟨.thrown .notFound, []⟩ := by
    simp [watchFileChanged, watchFileChangedAt, NodeFs.watch, h1, h2]
  rw [hw]
  exact ⟨rfl, rfl, by intro t c; rfl⟩

/-- Claim C9, witness: the amended theorem applied to the empty filesystem. -/
theorem claim_c9_witness :
    ((⟨[], []⟩ : FS).lookup filePathForWatch = none) ∧
    (watchFileChanged ⟨[], []⟩).registered = [] :=
  ⟨by decide, (claim_c9_thm ⟨[], []⟩ (by decide) (by decide)).2.1⟩

/-- Claim C10, counterexample to the claim as stated: when the delete target
path holds a directory entry, the existence guard passes, the unguarded
unlink fails with EISDIR and deleteFileSync propagates the exception to its
caller instead of returning normally. -/
theorem claim_c10_cex :
    (deleteFileSync ⟨[(deleteFilePath, Entry.dir)], []⟩).outcome =
      .thrown .isDirectory := by
  decide

/-- Claim C10, amended: fileReadAsync, writeFileAsync, appendFileSync and
deleteFileAsync return normally (undefined) in every filesystem state —
their fs errors are pre-checked or caught — but deleteFileSync is only
exception-free when the target is not a directory entry: its existence
guard does not cover unlink failures and it has no catch. -/
theorem claim_c10_thm (st : FS) (text : String) :
    (fileReadAsync st).outcome = .ret .undef ∧
    (writeFileAsync st).outcome = .ret .undef ∧
    (appendFileSync st text).outcome = .ret .undef ∧
    (deleteFileAsync st).outcome = .ret .undef ∧
    (st.lookup deleteFilePath ≠ some .dir →
      (deleteFileSync st).outcome = .ret .undef) := by
  refine ⟨fileReadAsync_outcome st, writeFileAsync_outcome st,
    appendFileSync_outcome st text, deleteFileAsync_outcome st, ?_⟩
  intro hnd
  cases hg : fileExistCheck st deleteFilePath with
  | false => simp [deleteFileSync, deleteFileSyncAt, hg]
  | true =>
    obtain ⟨hd, hl⟩ := (fileExistCheck_eq_true_iff st deleteFilePath).mp hg
    obtain ⟨e, he⟩ := Option.isSome_iff_exists.mp hl
    cases e with
    | dir => exact absurd he hnd
    | file c =>
      simp [deleteFileSync, deleteFileSyncAt, hg, NodeFs.unlink, hd, he]

/-- Claim C10, witness: the amended theorem applied to the empty filesystem
(the guarded branch) with the target absent. -/
theorem claim_c10_witness :
    ((⟨[], []⟩ : FS).lookup deleteFilePath ≠ some .dir) ∧
    (deleteFileSync ⟨[], []⟩).outcome = .ret .undef :=
  ⟨by decide, (claim_c10_thm ⟨[], []⟩ "x").2.2.2.2 (by decide)⟩
